import Mathlib

/-!
# Route Optimization Core — verification of the spec against the source

Shallow embedding of `src/services/route_optimizer.py` (class `RouteOptimizer`)
and the surrounding API layer (`src/api/routes.py`), with theorems settling the
spec's claims about matrix construction, the nearest-neighbor fallback, route
assembly and metrics.

Conventions:
* Python floats are modelled as real numbers (`ℝ`).
* Collaborator calls that can fail (traffic / weather fetches) are modelled as
  `Except Unit` values supplied by the environment.
* The external OR-Tools constrained solver is opaque third-party code; its
  outcome is modelled as an `Option (List Nat)` (`none` = solve failed, raised,
  or returned no solution — both of those code paths fall back to
  `_nearest_neighbor_solution`).
* `round(x, 2)` on Python floats is kept abstract as a parameter `round2`.
-/

namespace RouteOptimizer

/-- A coordinate pair, as the `{lat, lng}` dicts of the source. -/
structure Point where
  lat : ℝ
  lng : ℝ

instance : Inhabited Point := ⟨⟨0, 0⟩⟩

/-- `np.radians`: degrees to radians. -/
noncomputable def radians (x : ℝ) : ℝ := x * (Real.pi / 180)

/-- `RouteOptimizer._haversine_distance` (route_optimizer.py:194-209). -/
noncomputable def haversine_distance (lat1 lon1 lat2 lon2 : ℝ) : ℝ :=
  let R : ℝ := 6371
  let dlat := radians (lat2 - lat1)
  let dlon := radians (lon2 - lon1)
  let a := Real.sin (dlat / 2) ^ 2 +
    Real.cos (radians lat1) * Real.cos (radians lat2) * Real.sin (dlon / 2) ^ 2
  let c := 2 * Real.arcsin (Real.sqrt a)
  R * c

/-- The weather-condition fields read by `_calculate_weather_impact`; the
source reads them out of a dict with `.get` defaults, an absent dict
(`if not weather_data`) is modelled as `none` at the call sites. -/
structure WeatherData where
  precipitation : ℝ
  wind_speed : ℝ
  visibility : ℝ

/-- `RouteOptimizer._calculate_weather_impact` (route_optimizer.py:137-158). -/
noncomputable def calculate_weather_impact (weather_data : Option WeatherData) : ℝ :=
  match weather_data with
  | none => 1
  | some w =>
    let m0 : ℝ := 1
    let m1 := if w.precipitation > 0 then m0 + (0.1 + w.precipitation / 10 * 0.2) else m0
    let m2 := if w.wind_speed > 20 then m1 + (w.wind_speed - 20) / 100 else m1
    let m3 := if w.visibility < 5 then m2 + (5 - w.visibility) / 10 else m2
    min m3 2

/-- Python's `min(candidates, key=d)` as executed at route_optimizer.py:305:
it scans the candidates in iteration order keeping the current best and
replacing it only on a strictly smaller key, so among tied minima the earliest
candidate wins.  CPython iterates a set of small distinct ints in ascending
order (hash(k) = k, no wraparound at these sizes), so the candidate lists fed
to this function are ascending and the earliest tied candidate is the lowest
index. -/
noncomputable def pyMin (d : Nat → ℝ) (best : Nat) : List Nat → Nat
  | [] => best
  | y :: ys => pyMin d (if d y < d best then y else best) ys

/-- The `while unvisited:` loop of `_nearest_neighbor_solution`
(route_optimizer.py:304-308).  `fuel` bounds the number of iterations; the
loop runs exactly `unvisited.length` times, so any `fuel ≥ unvisited.length`
reproduces the Python loop. -/
noncomputable def nnLoop (d : Nat → Nat → ℝ) : Nat → Nat → List Nat → List Nat
  | 0, _, _ => []
  | fuel + 1, current, unvisited =>
    match unvisited with
    | [] => []
    | u :: us =>
      let nearest := pyMin (d current) u us
      nearest :: nnLoop d fuel nearest ((u :: us).erase nearest)

/-- `RouteOptimizer._nearest_neighbor_solution` (route_optimizer.py:297-310):
start at the depot 0 with `unvisited = set(range(1, n))` and repeatedly append
the nearest unvisited node. -/
noncomputable def nearest_neighbor_solution (d : Nat → Nat → ℝ) (n : Nat) : List Nat :=
  0 :: nnLoop d n 0 (List.range' 1 (n - 1))

theorem pyMin_mem (d : Nat → ℝ) (x : Nat) (ys : List Nat) : pyMin d x ys ∈ x :: ys := by
  induction ys generalizing x with
  | nil => simp [pyMin]
  | cons y ys ih =>
    simp only [pyMin]
    have h := ih (if d y < d x then y else x)
    by_cases hc : d y < d x <;> simp [hc] at h ⊢ <;> tauto

theorem pyMin_le (d : Nat → ℝ) (x : Nat) (ys : List Nat) :
    ∀ z ∈ x :: ys, d (pyMin d x ys) ≤ d z := by
  induction ys generalizing x with
  | nil =>
    intro z hz
    rw [List.mem_singleton] at hz
    subst hz
    simp [pyMin]
  | cons y ys ih =>
    intro z hz
    simp only [pyMin]
    have hbest : d (if d y < d x then y else x) ≤ d x ∧
        d (if d y < d x then y else x) ≤ d y := by
      by_cases hc : d y < d x
      · simp only [if_pos hc]; exact ⟨le_of_lt hc, le_refl _⟩
      · simp only [if_neg hc]; exact ⟨le_refl _, le_of_not_lt hc⟩
    have hmin := ih (if d y < d x then y else x)
    rcases List.mem_cons.mp hz with rfl | hz'
    · exact le_trans (hmin _ (List.mem_cons_self _ _)) hbest.1
    · rcases List.mem_cons.mp hz' with rfl | hz''
      · exact le_trans (hmin _ (List.mem_cons_self _ _)) hbest.2
      · exact hmin z (List.mem_cons_of_mem _ hz'')

theorem pyMin_eq_or (d : Nat → ℝ) (x : Nat) (ys : List Nat) :
    pyMin d x ys = x ∨ (pyMin d x ys ∈ ys ∧ d (pyMin d x ys) < d x) := by
  induction ys generalizing x with
  | nil => left; rfl
  | cons y ys ih =>
    simp only [pyMin]
    by_cases hc : d y < d x
    · simp only [if_pos hc]
      rcases ih y with h | ⟨h1, h2⟩
      · right
        constructor
        · rw [h]; exact List.mem_cons_self _ _
        · rw [h]; exact hc
      · exact Or.inr ⟨List.mem_cons_of_mem _ h1, lt_trans h2 hc⟩
    · simp only [if_neg hc]
      rcases ih x with h | ⟨h1, h2⟩
      · exact Or.inl h
      · exact Or.inr ⟨List.mem_cons_of_mem _ h1, h2⟩

/-- On an ascending candidate list, `pyMin` breaks ties by lowest index. -/
theorem pyMin_tie_lowest (d : Nat → ℝ) (x : Nat) (ys : List Nat)
    (hs : (x :: ys).Pairwise (· < ·)) :
    ∀ z ∈ x :: ys, d z = d (pyMin d x ys) → pyMin d x ys ≤ z := by
  induction ys generalizing x with
  | nil =>
    intro z hz _
    rw [List.mem_singleton] at hz
    subst hz
    simp [pyMin]
  | cons y ys ih =>
    have hxy : x < y := (List.pairwise_cons.mp hs).1 y (List.mem_cons_self _ _)
    have hxt : ∀ t ∈ ys, x < t := fun t ht =>
      (List.pairwise_cons.mp hs).1 t (List.mem_cons_of_mem _ ht)
    have hyt : (y :: ys).Pairwise (· < ·) := (List.pairwise_cons.mp hs).2
    intro z hz htie
    simp only [pyMin] at htie ⊢
    by_cases hc : d y < d x
    · rw [if_pos hc] at htie ⊢
      rcases List.mem_cons.mp hz with rfl | hz'
      · exfalso
        have h1 : d (pyMin d y ys) ≤ d y := pyMin_le d y ys y (List.mem_cons_self _ _)
        rw [← htie] at h1
        exact absurd h1 (not_le_of_lt hc)
      · exact ih y hyt z hz' htie
    · rw [if_neg hc] at htie ⊢
      have hxy' : d x ≤ d y := le_of_not_lt hc
      rcases List.mem_cons.mp hz with rfl | hz'
      · rcases pyMin_eq_or d z ys with he | ⟨_, hlt⟩
        · rw [he]
        · exfalso; rw [← htie] at hlt; exact lt_irrefl _ hlt
      · rcases List.mem_cons.mp hz' with rfl | hz''
        · rcases pyMin_eq_or d x ys with he | ⟨_, hlt⟩
          · rw [he]; exact le_of_lt hxy
          · exfalso; rw [← htie] at hlt; exact absurd hlt (not_lt_of_le hxy')
        · have hs'' : (x :: ys).Pairwise (· < ·) :=
            List.pairwise_cons.mpr ⟨hxt, (List.pairwise_cons.mp hyt).2⟩
          exact ih x hs'' z (List.mem_cons_of_mem _ hz'') htie

/-- The loop body output is a permutation of the unvisited set. -/
theorem nnLoop_perm (d : Nat → Nat → ℝ) :
    ∀ (fuel current : Nat) (unvisited : List Nat),
      unvisited.length ≤ fuel → (nnLoop d fuel current unvisited).Perm unvisited := by
  intro fuel
  induction fuel with
  | zero =>
    intro current unvisited h
    have he : unvisited = [] := List.length_eq_zero.mp (Nat.le_zero.mp h)
    subst he
    simp [nnLoop]
  | succ f ih =>
    intro current unvisited h
    match unvisited with
    | [] => simp [nnLoop]
    | u :: us =>
      simp only [nnLoop]
      have hm : pyMin (d current) u us ∈ u :: us := pyMin_mem _ _ _
      have hlen : ((u :: us).erase (pyMin (d current) u us)).length ≤ f := by
        rw [List.length_erase_of_mem hm]
        simp only [List.length_cons] at h ⊢
        omega
      have hp := ih (pyMin (d current) u us) _ hlen
      exact (hp.cons _).trans (List.perm_cons_erase hm).symm

theorem nearest_neighbor_solution_perm (d : Nat → Nat → ℝ) (n : Nat) (hn : 1 ≤ n) :
    (nearest_neighbor_solution d n).Perm (List.range n) := by
  have h1 : (List.range' 1 (n - 1)).length ≤ n := by
    simp [List.length_range']
  have hp := nnLoop_perm d n 0 _ h1
  have hr : List.range n = 0 :: List.range' 1 (n - 1) := by
    obtain ⟨m, rfl⟩ : ∃ m, n = m + 1 := ⟨n - 1, by omega⟩
    rw [List.range_eq_range', List.range'_succ]
    simp
  rw [nearest_neighbor_solution, hr]
  exact hp.cons 0

/-- The traffic-data fields read downstream (`status`, `multiplier`). -/
structure TrafficData where
  status : String
  multiplier : ℝ

/-- `_get_traffic_conditions` (route_optimizer.py:97-117): any exception in
the cache/API fetch is caught and replaced by the documented default dict
`{'status': 'unavailable', 'multiplier': 1.0}`; the failure never escapes. -/
noncomputable def get_traffic_conditions (fetch : Except Unit TrafficData) : TrafficData :=
  match fetch with
  | .ok t => t
  | .error _ => { status := "unavailable", multiplier := 1 }

/-- The dict returned by `_get_weather_conditions`. -/
structure WeatherResult where
  conditions : Option WeatherData
  impact_multiplier : ℝ

/-- `_get_weather_conditions` (route_optimizer.py:119-135): on success the
impact multiplier is computed from the fetched conditions; on any exception
the default `{'conditions': {}, 'impact_multiplier': 1.0}` is returned and the
failure never escapes. -/
noncomputable def get_weather_conditions (fetch : Except Unit (Option WeatherData)) :
    WeatherResult :=
  match fetch with
  | .ok w => { conditions := w, impact_multiplier := calculate_weather_impact w }
  | .error _ => { conditions := none, impact_multiplier := 1 }

/-- `TomTomAPI._get_mock_traffic_data` (external_apis.py:112-120): the mock
dict substituted when the TomTom API is unavailable; its multiplier is 1.2. -/
noncomputable def get_mock_traffic_data : TrafficData :=
  { status := "mock", multiplier := 1.2 }

/-- `TomTomAPI.get_traffic_flow` (external_apis.py:27-49): with no API key
configured it returns the mock data, and any exception inside the body is
caught and also replaced by the mock data; only a successful keyed call
returns the built traffic dict. -/
noncomputable def get_traffic_flow (api_key_configured : Bool)
    (body : Except Unit TrafficData) : TrafficData :=
  if api_key_configured then
    match body with
    | .ok t => t
    | .error _ => get_mock_traffic_data
  else get_mock_traffic_data

/-- `WeatherAPI._get_mock_weather_data` (external_apis.py:177-186), the
condition fields read downstream: no precipitation, wind 10 km/h,
visibility 15 km. -/
noncomputable def get_mock_weather_data : WeatherData :=
  { precipitation := 0, wind_speed := 10, visibility := 15 }

/-- `_build_matrices` (route_optimizer.py:160-192).  Matrices are index
functions; entries outside the n×n block keep the `np.zeros` fill, as does
the diagonal, which the fill loop skips (`if i != j`). -/
noncomputable def build_matrices (origin : Point) (destinations : List Point)
    (traffic_multiplier weather_multiplier : ℝ) : (Nat → Nat → ℝ) × (Nat → Nat → ℝ) :=
  let all_points := origin :: destinations
  let n := all_points.length
  let dm : Nat → Nat → ℝ := fun i j =>
    if i < n ∧ j < n ∧ i ≠ j then
      haversine_distance (all_points.getD i default).lat (all_points.getD i default).lng
        (all_points.getD j default).lat (all_points.getD j default).lng
    else 0
  let tm : Nat → Nat → ℝ := fun i j =>
    if i < n ∧ j < n ∧ i ≠ j then
      dm i j / 50 * 60 * traffic_multiplier * weather_multiplier
    else 0
  (dm, tm)

/-- `_solve_vrp` (route_optimizer.py:211-284).  The OR-Tools model build and
search are external library code; their outcome is abstracted: `some s` when
`routing.SolveWithParameters` returned a solution (then `_extract_solution`
walks it into the list `s`), `none` when it returned no solution or raised —
both of those branches (lines 277-280 and 282-284) call
`_nearest_neighbor_solution` on the distance matrix. -/
noncomputable def solve_vrp (solverOutcome : Option (List Nat))
    (distance_matrix : Nat → Nat → ℝ) (n : Nat) : List Nat :=
  match solverOutcome with
  | some s => s
  | none => nearest_neighbor_solution distance_matrix n

/-- One stop of the assembled route, with the fields `_build_route` attaches;
the first stop of a route has no `distance_from_previous`/`time_from_previous`
keys, modelled as `none`. -/
structure RouteStop where
  point : Point
  sequence : Nat
  stop_id : Nat
  distance_from_previous : Option ℝ
  time_from_previous : Option ℝ

/-- The dict returned by `_build_route`. -/
structure RouteResult where
  stops : List RouteStop
  total_distance_km : ℝ
  total_time_minutes : ℝ
  optimization_sequence : List Nat

/-- The `i > 0` iterations of the `_build_route` loop (route_optimizer.py:
322-338): `prev` is the previous sequence entry, `i` the enumerate index;
returns the stops plus the distance and time totals they contribute. -/
noncomputable def route_legs (all_points : List Point) (dm tm : Nat → Nat → ℝ) :
    Nat → Nat → List Nat → List RouteStop × ℝ × ℝ
  | _, _, [] => ([], 0, 0)
  | prev, i, idx :: rest =>
    let stop : RouteStop :=
      { point := all_points.getD idx default, sequence := i, stop_id := idx,
        distance_from_previous := some (dm prev idx),
        time_from_previous := some (tm prev idx) }
    let tail := route_legs all_points dm tm idx (i + 1) rest
    (stop :: tail.1, dm prev idx + tail.2.1, tm prev idx + tail.2.2)

/-- `_build_route` (route_optimizer.py:312-345). -/
noncomputable def build_route (origin : Point) (destinations : List Point)
    (sequence : List Nat) (dm tm : Nat → Nat → ℝ) : RouteResult :=
  let all_points := origin :: destinations
  match sequence with
  | [] =>
    { stops := [], total_distance_km := 0, total_time_minutes := 0,
      optimization_sequence := [] }
  | s0 :: rest =>
    let first : RouteStop :=
      { point := all_points.getD s0 default, sequence := 0, stop_id := s0,
        distance_from_previous := none, time_from_previous := none }
    let legs := route_legs all_points dm tm s0 1 rest
    { stops := first :: legs.1, total_distance_km := legs.2.1,
      total_time_minutes := legs.2.2, optimization_sequence := s0 :: rest }

/-- The dict returned by `_calculate_metrics`. -/
structure Metrics where
  total_distance_km : ℝ
  total_time_minutes : ℝ
  fuel_consumed_liters : ℝ
  estimated_cost_usd : ℝ
  average_speed_kmh : ℝ
  traffic_impact : ℝ
  weather_impact : ℝ
  optimization_quality : String
  stops_count : Nat

/-- The `fuel_efficiency` dict lookup `.get(vehicle_type, 35)`
(route_optimizer.py:355-362). -/
noncomputable def fuel_efficiency (vehicle_type : String) : ℝ :=
  if vehicle_type = "diesel_truck" then 35
  else if vehicle_type = "petrol_truck" then 40
  else if vehicle_type = "electric_truck" then 0
  else if vehicle_type = "hybrid_truck" then 25
  else 35

/-- `_calculate_metrics` (route_optimizer.py:347-383).  `round2` abstracts
Python's `round(x, 2)` on floats. -/
noncomputable def calculate_metrics (round2 : ℝ → ℝ) (route : RouteResult)
    (vehicle_type : String) (traffic_data : TrafficData) (weather_data : WeatherResult) :
    Metrics :=
  let total_distance := route.total_distance_km
  let total_time := route.total_time_minutes
  let efficiency := fuel_efficiency vehicle_type
  let fuel_consumed := if efficiency > 0 then total_distance * efficiency / 100 else 0
  let fuel_cost := fuel_consumed * 1.5
  let driver_cost := total_time / 60 * 25
  let total_cost := fuel_cost + driver_cost
  { total_distance_km := round2 total_distance,
    total_time_minutes := round2 total_time,
    fuel_consumed_liters := round2 fuel_consumed,
    estimated_cost_usd := round2 total_cost,
    average_speed_kmh :=
      if total_time > 0 then round2 (total_distance / (total_time / 60)) else 0,
    traffic_impact := traffic_data.multiplier,
    weather_impact := weather_data.impact_multiplier,
    optimization_quality := "optimal",
    stops_count := route.stops.length - 1 }

/-- The per-call environment: outcomes of the two collaborator fetches and of
the external constrained solver. -/
structure OptimizeEnv where
  trafficFetch : Except Unit TrafficData
  weatherFetch : Except Unit (Option WeatherData)
  solverOutcome : Option (List Nat)

/-- The result dict assembled by `optimize` (route_id, timestamp and caching
are collaborator concerns outside the optimization core). -/
structure OptimizationResult where
  optimized_route : RouteResult
  metrics : Metrics

/-- The matrices `optimize` builds at lines 56-62: collaborator conditions
are resolved first and their multipliers fed to `_build_matrices`. -/
noncomputable def matrices_of (env : OptimizeEnv) (origin : Point)
    (destinations : List Point) : (Nat → Nat → ℝ) × (Nat → Nat → ℝ) :=
  build_matrices origin destinations
    (get_traffic_conditions env.trafficFetch).multiplier
    (get_weather_conditions env.weatherFetch).impact_multiplier

/-- `RouteOptimizer.optimize` (route_optimizer.py:30-95): fetch conditions,
build matrices, solve, assemble the route, compute metrics. -/
noncomputable def optimize (round2 : ℝ → ℝ) (env : OptimizeEnv) (origin : Point)
    (destinations : List Point) (vehicle_type : String) : OptimizationResult :=
  let traffic_data := get_traffic_conditions env.trafficFetch
  let weather_data := get_weather_conditions env.weatherFetch
  let ms := matrices_of env origin destinations
  let seq := solve_vrp env.solverOutcome ms.1 (destinations.length + 1)
  let route := build_route origin destinations seq ms.1 ms.2
  { optimized_route := route,
    metrics := calculate_metrics round2 route vehicle_type traffic_data weather_data }

/-- The request payload of the `/optimize-route` endpoint; `none` fields model
absent JSON keys. -/
structure Payload where
  origin : Option Point
  destinations : Option (List Point)
  vehicle_type : Option String

/-- The `optimize_route` endpoint (routes.py:23-83): presence of the `origin`
and `destinations` keys is the only validation performed before
`route_optimizer.optimize` runs. -/
noncomputable def optimize_route (round2 : ℝ → ℝ) (env : OptimizeEnv)
    (data : Payload) : Except String OptimizationResult :=
  match data.origin, data.destinations with
  | some o, some ds =>
    .ok (optimize round2 env o ds (data.vehicle_type.getD "diesel_truck"))
  | _, _ => .error "Missing required fields: origin, destinations"

end RouteOptimizer

open RouteOptimizer

/-- **C9.** The haversine great-circle distance is symmetric in its two
coordinate pairs, and the distance from a point to itself is zero. -/
theorem c9_haversine_symm_and_self_zero (lat1 lon1 lat2 lon2 : ℝ) :
    haversine_distance lat1 lon1 lat2 lon2 = haversine_distance lat2 lon2 lat1 lon1 ∧
    haversine_distance lat1 lon1 lat1 lon1 = 0 := by
  constructor
  · have e1 : radians (lat1 - lat2) = -radians (lat2 - lat1) := by
      unfold radians; ring
    have e2 : radians (lon1 - lon2) = -radians (lon2 - lon1) := by
      unfold radians; ring
    simp only [haversine_distance, e1, e2, neg_div, Real.sin_neg, neg_sq]
    ring_nf
  · simp [haversine_distance, radians]

/-- **C8.** For every weather-conditions input (any precipitation, wind-speed
and visibility values, and also an absent weather dict), the computed weather
impact multiplier never exceeds 2.0. -/
theorem c8_weather_impact_capped (weather_data : Option WeatherData) :
    calculate_weather_impact weather_data ≤ 2 := by
  cases weather_data with
  | none => simp [calculate_weather_impact]
  | some w =>
    simp only [calculate_weather_impact]
    exact min_le_right _ _

namespace RouteOptimizer

/-- The assembled route records the optimization sequence verbatim. -/
theorem build_route_sequence (origin : Point) (destinations : List Point)
    (seq : List Nat) (dm tm : Nat → Nat → ℝ) :
    (build_route origin destinations seq dm tm).optimization_sequence = seq := by
  cases seq <;> rfl

/-- `_solve_vrp` output is a depot-first permutation: unconditionally on the
fallback path, and on the solver path whenever the solver outcome satisfies
the routing contract. -/
theorem solve_vrp_spec (so : Option (List Nat)) (dm : Nat → Nat → ℝ) (n : Nat)
    (hn : 1 ≤ n)
    (hs : ∀ s, so = some s → s.Perm (List.range n) ∧ s.head? = some 0) :
    (solve_vrp so dm n).Perm (List.range n) ∧ (solve_vrp so dm n).head? = some 0 := by
  cases so with
  | none => exact ⟨nearest_neighbor_solution_perm dm n hn, rfl⟩
  | some s => exact hs s rfl

/-- Characterization of the `i > 0` loop of `_build_route`: the stops carry
the matrix entries of the consecutive sequence pairs, and the running totals
are their sums. -/
theorem route_legs_spec (all_points : List Point) (dm tm : Nat → Nat → ℝ) :
    ∀ (rest : List Nat) (prev i : Nat),
      (route_legs all_points dm tm prev i rest).2.1
        = (((prev :: rest).zip rest).map fun p => dm p.1 p.2).sum ∧
      (route_legs all_points dm tm prev i rest).2.2
        = (((prev :: rest).zip rest).map fun p => tm p.1 p.2).sum ∧
      (route_legs all_points dm tm prev i rest).1.map
          (fun s => s.distance_from_previous)
        = ((prev :: rest).zip rest).map fun p => some (dm p.1 p.2) := by
  intro rest
  induction rest with
  | nil => intro prev i; simp [route_legs]
  | cons r rs ih =>
    intro prev i
    obtain ⟨h1, h2, h3⟩ := ih r (i + 1)
    simp [route_legs, List.zip_cons_cons, h1, h2, h3]

end RouteOptimizer

/-- **C1 counterexample.** A concrete optimize call in which the constrained
solver produced no solution (`solverOutcome = none`), so the nearest-neighbor
fallback produced the visiting order; its metrics are nonetheless tagged
`"optimal"`, not `"heuristic_fallback"`. -/
theorem c1_counterexample :
    (optimize id ⟨Except.error (), Except.error (), none⟩ ⟨0, 0⟩ [⟨0, 1⟩]
        "diesel_truck").metrics.optimization_quality = "optimal" ∧
    (optimize id ⟨Except.error (), Except.error (), none⟩ ⟨0, 0⟩ [⟨0, 1⟩]
        "diesel_truck").metrics.optimization_quality ≠ "heuristic_fallback" := by
  refine ⟨rfl, ?_⟩
  intro h
  rw [show (optimize id ⟨Except.error (), Except.error (), none⟩ ⟨0, 0⟩ [⟨0, 1⟩]
      "diesel_truck").metrics.optimization_quality = "optimal" from rfl] at h
  simp at h

/-- **C1 (amended).** `_calculate_metrics` hard-codes the quality flag: every
optimize result carries optimization_quality = "optimal", on the solver path
and on the nearest-neighbor fallback path alike; "heuristic_fallback" is never
produced. -/
theorem c1_amended_quality_always_optimal (round2 : ℝ → ℝ) (env : OptimizeEnv)
    (origin : Point) (destinations : List Point) (vehicle_type : String) :
    (optimize round2 env origin destinations vehicle_type).metrics.optimization_quality
      = "optimal" := rfl

/-- **C2 counterexample.** A call whose payload has an empty destinations list
is not rejected: `optimize` runs and a (depot-only) route result is produced,
contradicting "optimize fails with a ValidationError ... no route result is
produced for such input". -/
theorem c2_counterexample :
    optimize_route id ⟨Except.error (), Except.error (), none⟩
        ⟨some ⟨0, 0⟩, some [], none⟩
      = Except.ok (optimize id ⟨Except.error (), Except.error (), none⟩ ⟨0, 0⟩ []
          "diesel_truck") ∧
    (optimize id ⟨Except.error (), Except.error (), none⟩ ⟨0, 0⟩ []
        "diesel_truck").optimized_route.optimization_sequence = [0] :=
  ⟨rfl, rfl⟩

/-- **C2 (amended).** A payload missing the origin key or the destinations key
is rejected with an error before any matrix is built; an empty (but present)
destinations list, however, passes validation and produces a route result. -/
theorem c2_amended_missing_keys_rejected (round2 : ℝ → ℝ) (env : OptimizeEnv)
    (o : Option Point) (ds : Option (List Point)) (v : Option String)
    (h : o = none ∨ ds = none) :
    optimize_route round2 env ⟨o, ds, v⟩
      = Except.error "Missing required fields: origin, destinations" := by
  rcases h with rfl | rfl
  · cases ds <;> rfl
  · cases o <;> rfl

theorem c2_witness :
    ((none : Option Point) = none ∨ (none : Option (List Point)) = none) ∧
    optimize_route id ⟨Except.error (), Except.error (), none⟩ ⟨none, none, none⟩
      = Except.error "Missing required fields: origin, destinations" :=
  ⟨Or.inl rfl,
    c2_amended_missing_keys_rejected id ⟨Except.error (), Except.error (), none⟩
      none none none (Or.inl rfl)⟩

/-- **C3.** For every optimize call over n = 1 + |destinations| nodes, the
returned optimization_sequence is a permutation of [0..n-1] whose first
element is 0 (the depot): unconditionally on the nearest-neighbor fallback
path (solver outcome `none`), and on the solver path whenever the external
OR-Tools solver returns a sequence satisfying its routing contract (a
depot-first permutation, spec §3 "Solution"). -/
theorem c3_sequence_permutation (round2 : ℝ → ℝ) (env : OptimizeEnv) (origin : Point)
    (destinations : List Point) (vehicle_type : String)
    (hsolver : ∀ s, env.solverOutcome = some s →
      s.Perm (List.range (destinations.length + 1)) ∧ s.head? = some 0) :
    ((optimize round2 env origin destinations
        vehicle_type).optimized_route.optimization_sequence).Perm
      (List.range (destinations.length + 1)) ∧
    (optimize round2 env origin destinations
        vehicle_type).optimized_route.optimization_sequence.head? = some 0 := by
  have hseq : (optimize round2 env origin destinations
      vehicle_type).optimized_route.optimization_sequence
      = solve_vrp env.solverOutcome (matrices_of env origin destinations).1
          (destinations.length + 1) :=
    build_route_sequence origin destinations _ _ _
  rw [hseq]
  exact solve_vrp_spec _ _ _ (Nat.succ_le_succ (Nat.zero_le _)) hsolver

theorem c3_witness :
    ((optimize id ⟨Except.error (), Except.error (), none⟩ ⟨0, 0⟩ [⟨0, 1⟩]
        "diesel_truck").optimized_route.optimization_sequence).Perm (List.range 2) ∧
    (optimize id ⟨Except.error (), Except.error (), none⟩ ⟨0, 0⟩ [⟨0, 1⟩]
        "diesel_truck").optimized_route.optimization_sequence.head? = some 0 :=
  c3_sequence_permutation id ⟨Except.error (), Except.error (), none⟩ ⟨0, 0⟩ [⟨0, 1⟩]
    "diesel_truck" (fun _ h => Option.noConfusion h)

/-- **C4.** For every assembled route, total_distance_km (and likewise
total_time_minutes) equals the sum of the matrix entries over consecutive
pairs of the returned sequence, and the per-leg distance attached to the stop
at position i+1 is the matrix entry for the pair (seq i, seq i+1), taken from
the matrix, never recomputed from coordinates. -/
theorem c4_route_totals_from_matrix (origin : Point) (destinations : List Point)
    (seq : List Nat) (dm tm : Nat → Nat → ℝ) :
    (build_route origin destinations seq dm tm).total_distance_km
      = ((seq.zip seq.tail).map fun p => dm p.1 p.2).sum ∧
    (build_route origin destinations seq dm tm).total_time_minutes
      = ((seq.zip seq.tail).map fun p => tm p.1 p.2).sum ∧
    (build_route origin destinations seq dm tm).stops.tail.map
        (fun s => s.distance_from_previous)
      = (seq.zip seq.tail).map fun p => some (dm p.1 p.2) := by
  cases seq with
  | nil => simp [build_route]
  | cons s0 rest =>
    obtain ⟨h1, h2, h3⟩ := route_legs_spec (origin :: destinations) dm tm rest s0 1
    simp [build_route, h1, h2, h3]

/-- **C5.** For every pair of distinct in-range node indices i ≠ j, the built
matrices satisfy distance_matrix[i][j] = haversine(point_i, point_j) and
time_matrix[i][j] = (distance_matrix[i][j] / 50 * 60) * traffic_multiplier *
weather_multiplier, and every diagonal entry of both matrices is zero. -/
theorem c5_matrix_entries (origin : Point) (destinations : List Point)
    (traffic_multiplier weather_multiplier : ℝ) (i j : Nat)
    (hi : i < (origin :: destinations).length)
    (hj : j < (origin :: destinations).length) (hij : i ≠ j) :
    ((build_matrices origin destinations traffic_multiplier weather_multiplier).1 i j
      = haversine_distance ((origin :: destinations).getD i default).lat
          ((origin :: destinations).getD i default).lng
          ((origin :: destinations).getD j default).lat
          ((origin :: destinations).getD j default).lng) ∧
    ((build_matrices origin destinations traffic_multiplier weather_multiplier).2 i j
      = (build_matrices origin destinations traffic_multiplier weather_multiplier).1 i j
          / 50 * 60 * traffic_multiplier * weather_multiplier) ∧
    (∀ k,
      (build_matrices origin destinations traffic_multiplier weather_multiplier).1 k k = 0 ∧
      (build_matrices origin destinations traffic_multiplier weather_multiplier).2 k k = 0) := by
  have hi' : i < destinations.length + 1 := by simpa using hi
  have hj' : j < destinations.length + 1 := by simpa using hj
  refine ⟨?_, ?_, fun k => ⟨?_, ?_⟩⟩ <;> simp [build_matrices, hi', hj', hij]

theorem c5_witness :
    ((0 : Nat) < (Point.mk 0 0 :: [Point.mk 1 1]).length ∧
      (1 : Nat) < (Point.mk 0 0 :: [Point.mk 1 1]).length ∧ (0 : Nat) ≠ 1) ∧
    (((build_matrices ⟨0, 0⟩ [⟨1, 1⟩] 1 1).1 0 1
      = haversine_distance ((Point.mk 0 0 :: [Point.mk 1 1]).getD 0 default).lat
          ((Point.mk 0 0 :: [Point.mk 1 1]).getD 0 default).lng
          ((Point.mk 0 0 :: [Point.mk 1 1]).getD 1 default).lat
          ((Point.mk 0 0 :: [Point.mk 1 1]).getD 1 default).lng) ∧
    ((build_matrices ⟨0, 0⟩ [⟨1, 1⟩] 1 1).2 0 1
      = (build_matrices ⟨0, 0⟩ [⟨1, 1⟩] 1 1).1 0 1 / 50 * 60 * 1 * 1) ∧
    (∀ k, (build_matrices ⟨0, 0⟩ [⟨1, 1⟩] 1 1).1 k k = 0 ∧
      (build_matrices ⟨0, 0⟩ [⟨1, 1⟩] 1 1).2 k k = 0)) :=
  ⟨⟨by decide, by decide, by decide⟩,
    c5_matrix_entries ⟨0, 0⟩ [⟨1, 1⟩] 1 1 0 1 (by decide) (by decide) (by decide)⟩

/-- **C6.** Given the same distance matrix, the fallback nearest-neighbor
construction is fully deterministic (extensionally equal matrices give
identical sequences), and at every loop step on an ascending unvisited list
the selected node attains the minimum distance from the current node and,
among tied minima, has the lowest index. -/
theorem c6_fallback_deterministic_ties_lowest :
    (∀ (d₁ d₂ : Nat → Nat → ℝ), (∀ i j, d₁ i j = d₂ i j) →
      ∀ n, nearest_neighbor_solution d₁ n = nearest_neighbor_solution d₂ n) ∧
    (∀ (d : Nat → Nat → ℝ) (fuel current u : Nat) (us : List Nat),
      (u :: us).Pairwise (· < ·) →
      nnLoop d (fuel + 1) current (u :: us)
        = pyMin (d current) u us
            :: nnLoop d fuel (pyMin (d current) u us)
                ((u :: us).erase (pyMin (d current) u us)) ∧
      pyMin (d current) u us ∈ u :: us ∧
      (∀ z ∈ u :: us, d current (pyMin (d current) u us) ≤ d current z) ∧
      (∀ z ∈ u :: us, d current z = d current (pyMin (d current) u us) →
        pyMin (d current) u us ≤ z)) := by
  constructor
  · intro d₁ d₂ h n
    have hd : d₁ = d₂ := funext fun i => funext fun j => h i j
    rw [hd]
  · intro d fuel current u us hs
    exact ⟨rfl, pyMin_mem _ _ _, pyMin_le _ _ _,
      fun z hz h => pyMin_tie_lowest _ _ _ hs z hz h⟩

/-- An all-ties cost matrix, for exercising the tie-break. -/
noncomputable def constZeroCost : Nat → Nat → ℝ := fun _ _ => 0

theorem c6_witness :
    nearest_neighbor_solution constZeroCost 3 = nearest_neighbor_solution constZeroCost 3 ∧
    (nnLoop constZeroCost 3 0 [1, 2]
      = pyMin (constZeroCost 0) 1 [2]
          :: nnLoop constZeroCost 2 (pyMin (constZeroCost 0) 1 [2])
              (([1, 2] : List Nat).erase (pyMin (constZeroCost 0) 1 [2])) ∧
    pyMin (constZeroCost 0) 1 [2] ∈ ([1, 2] : List Nat) ∧
    (∀ z ∈ ([1, 2] : List Nat), constZeroCost 0 (pyMin (constZeroCost 0) 1 [2])
      ≤ constZeroCost 0 z) ∧
    (∀ z ∈ ([1, 2] : List Nat),
      constZeroCost 0 z = constZeroCost 0 (pyMin (constZeroCost 0) 1 [2]) →
      pyMin (constZeroCost 0) 1 [2] ≤ z)) :=
  ⟨c6_fallback_deterministic_ties_lowest.1 constZeroCost constZeroCost
      (fun _ _ => rfl) 3,
    c6_fallback_deterministic_ties_lowest.2 constZeroCost 2 0 1 [2] (by decide)⟩

/-- **C7 counterexample.** The claim covers the traffic fetch being
unavailable; on that path `get_traffic_flow` (no API key configured)
succeeds with the mock dict of `_get_mock_traffic_data`, whose multiplier
1.2 — not the documented default 1.0 — is what matrix construction then
proceeds with. -/
theorem c7_counterexample :
    (get_traffic_conditions
        (Except.ok (get_traffic_flow false (Except.error ())))).multiplier = 1.2 ∧
    (get_traffic_conditions
        (Except.ok (get_traffic_flow false (Except.error ())))).multiplier ≠ 1 ∧
    matrices_of ⟨Except.ok (get_traffic_flow false (Except.error ())),
        Except.error (), none⟩ ⟨0, 0⟩ [⟨0, 1⟩]
      = build_matrices ⟨0, 0⟩ [⟨0, 1⟩] 1.2 1 := by
  refine ⟨rfl, ?_, rfl⟩
  intro h
  rw [show (get_traffic_conditions
      (Except.ok (get_traffic_flow false (Except.error ())))).multiplier
      = (1.2 : ℝ) from rfl] at h
  norm_num at h

/-- **C7 (amended).** A fetch failure that raises into the optimizer's
condition getters is absorbed and replaced by the documented default
multiplier 1.0, and matrix construction proceeds with the defaulted scalars;
but an unavailable TomTom API (missing key, or a failure caught inside
`get_traffic_flow`) substitutes the mock traffic data with multiplier 1.2
instead of 1.0, while unavailable weather yields the mock conditions whose
computed impact multiplier is 1.0.  In every case the failure is absorbed
and never surfaces as an error. -/
theorem c7_amended_failure_substitution (env : OptimizeEnv) (origin : Point)
    (destinations : List Point) (ht : env.trafficFetch = Except.error ())
    (hw : env.weatherFetch = Except.error ()) :
    ((get_traffic_conditions env.trafficFetch).multiplier = 1 ∧
      (get_weather_conditions env.weatherFetch).impact_multiplier = 1 ∧
      matrices_of env origin destinations = build_matrices origin destinations 1 1) ∧
    (∀ body : Except Unit TrafficData, (get_traffic_flow false body).multiplier = 1.2) ∧
    (get_traffic_flow true (Except.error ())).multiplier = 1.2 ∧
    calculate_weather_impact (some get_mock_weather_data) = 1 := by
  refine ⟨⟨?_, ?_, ?_⟩, fun body => rfl, rfl, ?_⟩
  · rw [ht]; rfl
  · rw [hw]; rfl
  · simp only [matrices_of, ht, hw]
    rfl
  · norm_num [calculate_weather_impact, get_mock_weather_data, min_def]

theorem c7_witness :
    ((get_traffic_conditions
        (⟨Except.error (), Except.error (), none⟩ : OptimizeEnv).trafficFetch).multiplier
        = 1 ∧
      (get_weather_conditions
        (⟨Except.error (), Except.error (), none⟩ : OptimizeEnv).weatherFetch).impact_multiplier
        = 1 ∧
      matrices_of ⟨Except.error (), Except.error (), none⟩ ⟨0, 0⟩ [⟨0, 1⟩]
        = build_matrices ⟨0, 0⟩ [⟨0, 1⟩] 1 1) ∧
    (∀ body : Except Unit TrafficData, (get_traffic_flow false body).multiplier = 1.2) ∧
    (get_traffic_flow true (Except.error ())).multiplier = 1.2 ∧
    calculate_weather_impact (some get_mock_weather_data) = 1 :=
  c7_amended_failure_substitution ⟨Except.error (), Except.error (), none⟩ ⟨0, 0⟩
    [⟨0, 1⟩] rfl rfl

/-- **C10.** For every vehicle_type outside the four known truck types, the
fuel-efficiency lookup falls back to 35 L/100km (the diesel value), so the
whole metrics dict for an unknown vehicle type equals the one computed for
"diesel_truck" on the same route. -/
theorem c10_unknown_vehicle_uses_diesel_default (round2 : ℝ → ℝ) (route : RouteResult)
    (traffic_data : TrafficData) (weather_data : WeatherResult) (vehicle_type : String)
    (h : vehicle_type ∉ (["diesel_truck", "petrol_truck", "electric_truck",
        "hybrid_truck"] : List String)) :
    calculate_metrics round2 route vehicle_type traffic_data weather_data
      = calculate_metrics round2 route "diesel_truck" traffic_data weather_data := by
  simp only [List.mem_cons, List.not_mem_nil, or_false, not_or] at h
  obtain ⟨h1, h2, h3, h4⟩ := h
  have he : fuel_efficiency vehicle_type = 35 := by
    simp [fuel_efficiency, h1, h2, h3, h4]
  have hd : fuel_efficiency "diesel_truck" = 35 := by
    simp [fuel_efficiency]
  simp only [calculate_metrics, he, hd]

theorem c10_witness :
    ("scooter" ∉ (["diesel_truck", "petrol_truck", "electric_truck",
        "hybrid_truck"] : List String)) ∧
    calculate_metrics id ⟨[], 0, 0, []⟩ "scooter" ⟨"active", 1⟩ ⟨none, 1⟩
      = calculate_metrics id ⟨[], 0, 0, []⟩ "diesel_truck" ⟨"active", 1⟩ ⟨none, 1⟩ :=
  ⟨by decide,
    c10_unknown_vehicle_uses_diesel_default id ⟨[], 0, 0, []⟩ ⟨"active", 1⟩ ⟨none, 1⟩
      "scooter" (by decide)⟩
